import Mathlib

/-
Verification of the calibration orchestration core of the PypeIt repository
(`pypit/calibrations.py`) and of the nested settings dictionary
(`src/arparse.py`), via a shallow embedding in Lean 4.

Artifacts are opaque payloads (modelled as `Nat`); builders are external
collaborators and are modelled as an environment of oracle values; the
orchestrator state mirrors the attributes of the `Calibrations` Python object.
Python attributes that are initialised to `None` in `__init__` are `Option`
fields; attributes that are only created later by some method are
`Option (Option _)` fields, where the outer `none` means the attribute does
not exist yet (so that `getattr` raising `AttributeError` is representable).
-/

set_option autoImplicit false

namespace PypitCalib

/-- Calibration artifacts are opaque payloads from the point of view of the
orchestrator; only identity matters. -/
abbrev Artifact := Nat

/-- A slit exclusion mask: one boolean per slit, `true` means excluded. -/
abbrev Mask := List Bool

/-- The slit-trace dictionary returned by `traceslits._fill_tslits_dict`.
The orchestrator only reads the slit count `lcen.shape[1]`. -/
structure TSlitsDict where
  nslits : Nat
  payload : Nat
deriving DecidableEq, Repr

/-- The settings bundle.  The orchestrator treats it as opaque except for the
flags it branches on: `reduce.flatfield.perform`, `reduce.calibrate.wavelength`
and `flatfield.useframe`.  Everything else is folded into `payload`. -/
structure Settings where
  flatfieldPerform : Bool
  wavelengthMode : String
  flatUseframe : String
  payload : Nat
deriving DecidableEq, Repr

/-- A value stored in the per-setup calibration dictionary. -/
inductive CVal where
  | art (a : Artifact)
  | tsl (t : TSlitsDict)
  | mask (m : Mask)
deriving DecidableEq, Repr

/-- Observable side effects of an accessor call: MasterFrame load attempts,
builder invocations, MasterFrame saves, and log messages. -/
inductive Event where
  | loadCall (tag : String)
  | buildCall (tag : String)
  | saveMaster (tag : String)
  | warn (msg : String)
  | info (msg : String)
  | workNote (msg : String)
deriving DecidableEq, Repr

/-- Python exceptions that can escape the orchestrator methods.
`error` is a fatal `msgs.error` call. -/
inductive PyErr where
  | error (msg : String)
  | keyError
  | typeError (msg : String)
  | attributeError (name : String)
  | indexError
  | valueError (msg : String)
deriving DecidableEq, Repr

/-- Result of an accessor: a value, a bare `return` (Python `None`), or an
uncaught exception. -/
inductive Outcome (α : Type) where
  | ok (a : α)
  | unavailable
  | err (e : PyErr)
deriving DecidableEq, Repr

/-- Association-list lookup by decidable equality (Python `d[k]` read). -/
def lookupKey {κ α : Type} [DecidableEq κ] : List (κ × α) → κ → Option α
  | [], _ => none
  | (k0, v0) :: rest, k => if k0 = k then some v0 else lookupKey rest k

/-- Association-list update (Python `d[k] = v`); a new key is appended at the
end, which matches insertion-ordered Python dicts. -/
def setKey {κ α : Type} [DecidableEq κ] : List (κ × α) → κ → α → List (κ × α)
  | [], k, v => [(k, v)]
  | (k0, v0) :: rest, k, v =>
    if k0 = k then (k, v) :: rest else (k0, v0) :: setKey rest k v

/-- Numpy in-place `a += b` on 1-D boolean arrays, as used for the slit mask:
elementwise logical OR when the lengths agree; a length-1 right operand is
broadcast over `a`; every other length disagreement raises `ValueError`
(`none`). -/
def npAddBool (a b : List Bool) : Option (List Bool) :=
  if b.length = a.length then some (List.zipWith (fun x y => x || y) a b)
  else if b.length = 1 then some (a.map (fun x => x || b.headD false))
  else none

/-- `np.zeros_like(m, dtype=bool)` for an optional mask; the degenerate
`None` argument (a 0-d array in numpy) is modelled as the empty mask. -/
def zerosLike : Option Mask → Mask
  | some m => List.replicate m.length false
  | none => []

/-- Oracles for the external Builder collaborators (MasterFrame loads, image
builds) and the external tables the orchestrator queries.  A `none` master
means the MasterFrame load misses and the artifact must be built. -/
structure BuilderEnv where
  biasMaster : Option Artifact
  biasBuild : Artifact
  arcMaster : Option Artifact
  arcBuild : Artifact
  bpmBuild : Artifact
  hasSciRow : Bool
  traceMasterHit : Bool
  traceTslits : TSlitsDict
  wvMaster : Option Artifact
  wvRun : Artifact
  wvMaskOf : Nat → Mask
  tiltsMaster : Option Artifact
  tiltsRun : Artifact × Mask
  flatMaster : Option Artifact
  flatUserLoad : Artifact
  flatRun : Artifact × Artifact
  flatSlitprofLoad : Artifact
  onesLike : Artifact → Artifact
  genPixloc : Artifact → Settings → Artifact

/-- The state of a `Calibrations` object (`pypit/calibrations.py`).
`calib_dict` maps the setup (which Python allows to be `None`) to a per-setup
dictionary from artifact tag to cached value. -/
structure Calibrations where
  calib_dict : List (Option String × List (String × CVal))
  det : Option Nat
  sci_ID : Option Nat
  settings : Option Settings
  setup : Option String
  msarc : Option Artifact
  msbias : Option Artifact
  mbpm : Option Artifact
  pixlocn : Option Artifact
  tslits_dict : Option TSlitsDict
  maskslits : Option Mask
  wavecalib : Option Artifact
  msbpm : Option (Option Artifact)
  wv_calib : Option (Option Artifact)
  wv_maskslits : Option (Option Mask)
  mstilts : Option (Option Artifact)
  wt_maskslits : Option (Option Mask)
  mspixflatnrm : Option (Option Artifact)
  slitprof : Option (Option Artifact)
deriving DecidableEq, Repr

/-- The state right after `Calibrations.__init__`: empty cache, all scope
fields and internals `None`, late-bound attributes not yet created. -/
def Calibrations.init : Calibrations :=
  { calib_dict := [], det := none, sci_ID := none, settings := none,
    setup := none, msarc := none, msbias := none, mbpm := none,
    pixlocn := none, tslits_dict := none, maskslits := none,
    wavecalib := none, msbpm := none, wv_calib := none, wv_maskslits := none,
    mstilts := none, wt_maskslits := none, mspixflatnrm := none,
    slitprof := none }

/-- An accessor call yields the updated object state, the emitted events in
order, and an outcome. -/
abbrev AccRes (α : Type) := Calibrations × List Event × Outcome α

/-- The fatal message emitted by `Calibrations._chk_set` for a scope field
that is still `None` (the source formats the item name into this text). -/
def chkSetMsg (item : String) : PyErr :=
  PyErr.error ("Use self.set to specify " ++ item ++ " prior to generating the bias")

/-- Whether `getattr(self, item)` is non-`None` for the scope fields inspected
by `_chk_set`. -/
def Calibrations.chkSetItem (c : Calibrations) (item : String) : Bool :=
  if item = "setup" then c.setup.isSome
  else if item = "det" then c.det.isSome
  else if item = "sci_ID" then c.sci_ID.isSome
  else if item = "settings" then c.settings.isSome
  else true

/-- `Calibrations._chk_set(items)`: walk the items in order and fail with the
fatal configuration message on the first one that is `None`. -/
def Calibrations.chk_set (c : Calibrations) : List String → Option PyErr
  | [] => none
  | item :: rest =>
    if c.chkSetItem item then c.chk_set rest else some (chkSetMsg item)

/-- The possible outcomes of `getattr(self, obj)` in `_chk_objs`: the
attribute exists and is non-`None`, exists but is `None`, or does not exist at
all (Python raises `AttributeError` in that case). -/
inductive AttrLookup where
  | isSet
  | isNone
  | missing
deriving DecidableEq, Repr

/-- `getattr(self, obj)` for the internals inspected by `_chk_objs`.
Attributes created in `__init__` are never `missing`; attributes only created
by later methods are `missing` until first assigned. -/
def Calibrations.getattrObj (c : Calibrations) (obj : String) : AttrLookup :=
  if obj = "msarc" then (if c.msarc.isSome then .isSet else .isNone)
  else if obj = "msbias" then (if c.msbias.isSome then .isSet else .isNone)
  else if obj = "pixlocn" then (if c.pixlocn.isSome then .isSet else .isNone)
  else if obj = "tslits_dict" then (if c.tslits_dict.isSome then .isSet else .isNone)
  else if obj = "maskslits" then (if c.maskslits.isSome then .isSet else .isNone)
  else if obj = "wv_calib" then
    (match c.wv_calib with
     | none => .missing
     | some none => .isNone
     | some (some _) => .isSet)
  else if obj = "mstilts" then
    (match c.mstilts with
     | none => .missing
     | some none => .isNone
     | some (some _) => .isSet)
  else .missing

/-- Strip a leading `ms` from an internal attribute name, as `_chk_objs` does
to recover the accessor name. -/
def stripMs (obj : String) : String :=
  if obj.take 2 = "ms" then obj.drop 2 else obj

/-- The warnings `_chk_objs` emits for a missing prerequisite `obj`: one
naming the prerequisite and one naming the accessor that would produce it. -/
def warnEvents (obj : String) : List Event :=
  [Event.warn ("You need to generate " ++ obj ++ " prior to wavelength calibration.."),
   if obj = "tslits_dict" || obj = "maskslits" then Event.warn "Use get_slits"
   else Event.warn ("Use get_" ++ stripMs obj)]

/-- Result of `Calibrations._chk_objs`. -/
inductive ChkObjs where
  | ok
  | failWarn (evs : List Event)
  | attrErr (obj : String)
deriving DecidableEq, Repr

/-- `Calibrations._chk_objs(items)`: walk the internals in order; on the
first `None` one, emit the two warnings and report failure (the caller then
bare-returns); a non-existent attribute raises `AttributeError`. -/
def Calibrations.chk_objs (c : Calibrations) : List String → ChkObjs
  | [] => .ok
  | obj :: rest =>
    match c.getattrObj obj with
    | .isSet => c.chk_objs rest
    | .isNone => .failWarn (warnEvents obj)
    | .missing => .attrErr obj

/-- The statement `self.maskslits += incoming` shared by `get_wv_calib` and
`get_tilts`: a numpy in-place OR-merge (with broadcasting) of the incoming
stage mask into the accumulated slit mask, after which the accessor returns
`(v, self.maskslits)`. -/
def maskMergeStep {α : Type} (c : Calibrations) (evs : List Event) (v : α)
    (wm : Mask) : AccRes (α × Mask) :=
  match c.maskslits with
  | none => (c, evs, .err (.typeError "unsupported operand type"))
  | some m =>
    match npAddBool m wm with
    | none => (c, evs, .err (.valueError "operands could not be broadcast together"))
    | some m2 => ({ c with maskslits := some m2 }, evs, .ok (v, m2))

/-- `Calibrations.set(setup, det, sci_ID, settings)`: store the scope, create
the per-setup cache bucket if absent, and log a work note.  The source only
*logs* "Reset all the internals to None" -- none of the internals is actually
reset. -/
def Calibrations.set (c : Calibrations) (setup : Option String)
    (det sci_ID : Option Nat) (settings : Settings) :
    Calibrations × List Event :=
  let c1 := { c with setup := setup, det := det, sci_ID := sci_ID,
                     settings := some settings }
  let c2 :=
    match lookupKey c1.calib_dict c1.setup with
    | some _ => c1
    | none => { c1 with calib_dict := setKey c1.calib_dict c1.setup [] }
  (c2, [Event.workNote "Reset all the internals to None"])

/-- `Calibrations.get_bias`.  The cache-hit path assigns and returns
`self.msbias`; the miss path loads or builds a bias and returns it directly --
the statement that would store it in `calib_dict` is commented out in the
source, so nothing is cached and `self.msbias` is not even assigned. -/
def Calibrations.get_bias (env : BuilderEnv) (c : Calibrations) :
    AccRes Artifact :=
  match c.chk_set ["setup", "det", "sci_ID", "settings"] with
  | some e => (c, [], .err e)
  | none =>
    match lookupKey c.calib_dict c.setup with
    | none => (c, [], .err .keyError)
    | some bkt =>
      match lookupKey bkt "bias" with
      | some (.art a) => ({ c with msbias := some a }, [], .ok a)
      | some _ => (c, [], .err (.typeError "unexpected cached value"))
      | none =>
        match env.biasMaster with
        | some m => (c, [.loadCall "bias"], .ok m)
        | none =>
          (c, [.loadCall "bias", .buildCall "bias", .saveMaster "bias"],
           .ok env.biasBuild)

/-- `Calibrations.get_arc(bias)`.  A non-`None` `bias` argument overwrites
`self.msbias`; a `None` `self.msbias` is a fatal `msgs.error`, not a warning.
On a cache miss the arc is loaded or built and returned at the early `return`
on line 116 of the source; the store into `calib_dict` on line 123 sits after
that `return` and is unreachable, so the arc is never cached. -/
def Calibrations.get_arc (env : BuilderEnv) (c0 : Calibrations)
    (bias : Option Artifact) : AccRes Artifact :=
  let c := match bias with
           | some b => { c0 with msbias := some b }
           | none => c0
  match c.msbias with
  | none => (c, [], .err (.error "msbias needs to be set prior to arc"))
  | some _ =>
    match c.chk_set ["setup", "det", "sci_ID", "settings"] with
    | some e => (c, [], .err e)
    | none =>
      match lookupKey c.calib_dict c.setup with
      | none => (c, [], .err .keyError)
      | some bkt =>
        match lookupKey bkt "arc" with
        | some (.art a) => ({ c with msarc := some a }, [], .ok a)
        | some _ => (c, [], .err (.typeError "unexpected cached value"))
        | none =>
          match env.arcMaster with
          | some m => ({ c with msarc := some m }, [.loadCall "arc"], .ok m)
          | none =>
            ({ c with msarc := some env.arcBuild },
             [.loadCall "arc", .info "Preparing a master arc frame",
              .buildCall "arc", .saveMaster "arc"],
             .ok env.arcBuild)

/-- `Calibrations.get_bpm(arc, bias)`.  Note that `_chk_set` here does not
include `setup`.  The bad-pixel mask is built directly (no MasterFrame load)
and, unlike bias and arc, really is stored in `calib_dict`.  The build reads
the exposure table (`IndexError` if no matching science row) and
`self.msarc.shape` (`AttributeError` if `msarc` is `None`). -/
def Calibrations.get_bpm (env : BuilderEnv) (c0 : Calibrations)
    (arc bias : Option Artifact) : AccRes Artifact :=
  let c1 := match arc with
            | some a => { c0 with msarc := some a }
            | none => c0
  let c := match bias with
           | some b => { c1 with msbias := some b }
           | none => c1
  match c.chk_set ["det", "settings", "sci_ID"] with
  | some e => (c, [], .err e)
  | none =>
    match lookupKey c.calib_dict c.setup with
    | none => (c, [], .err .keyError)
    | some bkt =>
      match lookupKey bkt "bpm" with
      | some (.art a) => ({ c with msbpm := some (some a) }, [], .ok a)
      | some _ => (c, [], .err (.typeError "unexpected cached value"))
      | none =>
        if env.hasSciRow then
          match c.msarc with
          | none => (c, [], .err (.attributeError "shape"))
          | some _ =>
            ({ c with msbpm := some (some env.bpmBuild),
                      calib_dict := setKey c.calib_dict c.setup
                        (setKey bkt "bpm" (.art env.bpmBuild)) },
             [.buildCall "bpm"], .ok env.bpmBuild)
        else (c, [], .err .indexError)

/-- `Calibrations.get_pixlocn(arc)`: reads detector geometry from the
settings and computes the pixel location map from `self.msarc.shape` via the
external `arpixels.core_gen_pixloc`; no caching is involved. -/
def Calibrations.get_pixlocn (env : BuilderEnv) (c0 : Calibrations)
    (arc : Option Artifact) : AccRes Artifact :=
  let c := match arc with
           | some a => { c0 with msarc := some a }
           | none => c0
  match c.chk_set ["settings"] with
  | some e => (c, [], .err e)
  | none =>
    match c.settings with
    | none => (c, [], .err (.typeError "NoneType object is not subscriptable"))
    | some st =>
      match c.msarc with
      | none => (c, [], .err (.attributeError "shape"))
      | some a =>
        ({ c with pixlocn := some (env.genPixloc a st) }, [],
         .ok (env.genPixloc a st))

/-- `Calibrations.get_slits(datasec_img)`.  After the cache check or the
load-or-build, `maskslits` is unconditionally reinitialised to all-false from
the slit count of the trace dictionary -- also on a cache hit.  The build path
instantiates `TraceSlits(..., binbpx=self.msbpm)`, so it raises
`AttributeError` when the `msbpm` attribute was never created. -/
def Calibrations.get_slits (env : BuilderEnv) (c : Calibrations)
    (datasec_img : Nat) : AccRes (TSlitsDict × Mask) :=
  match c.chk_objs ["pixlocn"] with
  | .failWarn evs => (c, evs, .unavailable)
  | .attrErr o => (c, [], .err (.attributeError o))
  | .ok =>
    match c.chk_set ["det", "settings", "setup", "sci_ID"] with
    | some e => (c, [], .err e)
    | none =>
      match lookupKey c.calib_dict c.setup with
      | none => (c, [], .err .keyError)
      | some bkt =>
        match lookupKey bkt "trace" with
        | some (.tsl t) =>
          ({ c with tslits_dict := some t,
                    maskslits := some (List.replicate t.nslits false) },
           [], .ok (t, List.replicate t.nslits false))
        | some _ => (c, [], .err (.typeError "unexpected cached value"))
        | none =>
          match c.msbpm with
          | none => (c, [], .err (.attributeError "msbpm"))
          | some _ =>
            ({ c with tslits_dict := some env.traceTslits,
                      maskslits := some (List.replicate env.traceTslits.nslits false),
                      calib_dict := setKey c.calib_dict c.setup
                        (setKey bkt "trace" (.tsl env.traceTslits)) },
             (if env.traceMasterHit then [.loadCall "trace"]
              else [.loadCall "trace", .buildCall "trace", .saveMaster "trace"]),
             .ok (env.traceTslits, List.replicate env.traceTslits.nslits false))

/-- `Calibrations.get_wv_calib(arc)`.  Three branches (cache hit / wavelength
calibration mode `pixel` / load-or-build) all end by OR-merging the stage mask
`wv_maskslits` into the accumulated `maskslits`.  The source also mutates
`self.settings['calibrate']` in the build branch; that key is part of the
opaque settings payload here. -/
def Calibrations.get_wv_calib (env : BuilderEnv) (c0 : Calibrations)
    (arc : Option Artifact) : AccRes (Option Artifact × Mask) :=
  let c := match arc with
           | some a => { c0 with msarc := some a }
           | none => c0
  match c.chk_objs ["msarc", "tslits_dict", "pixlocn"] with
  | .failWarn evs => (c, evs, .unavailable)
  | .attrErr o => (c, [], .err (.attributeError o))
  | .ok =>
    match c.chk_set ["det", "settings", "setup", "sci_ID"] with
    | some e => (c, [], .err e)
    | none =>
      match lookupKey c.calib_dict c.setup with
      | none => (c, [], .err .keyError)
      | some bkt =>
        match lookupKey bkt "wavecalib" with
        | some (.art a) =>
          (match lookupKey bkt "wvmask" with
           | some (.mask wm) =>
             maskMergeStep
               { c with wv_calib := some (some a), wv_maskslits := some (some wm) }
               [] (some a) wm
           | some _ => (c, [], .err (.typeError "unexpected cached value"))
           | none => (c, [], .err .keyError))
        | some _ => (c, [], .err (.typeError "unexpected cached value"))
        | none =>
          match c.settings with
          | none => (c, [], .err (.typeError "NoneType object is not subscriptable"))
          | some st =>
            if st.wavelengthMode = "pixel" then
              maskMergeStep
                { c with wv_calib := some none,
                         wv_maskslits := some (some (zerosLike c.maskslits)) }
                [.info "A wavelength calibration will not be performed"]
                none (zerosLike c.maskslits)
            else
              match c.tslits_dict with
              | none => (c, [], .err (.typeError "NoneType object is not subscriptable"))
              | some t =>
                match env.wvMaster with
                | some m =>
                  maskMergeStep
                    { c with wv_calib := some (some m),
                             wv_maskslits := some (some (env.wvMaskOf t.nslits)),
                             calib_dict := setKey c.calib_dict c.setup
                               (setKey (setKey bkt "wavecalib" (.art m))
                                 "wvmask" (.mask (env.wvMaskOf t.nslits))) }
                    [.loadCall "wavecalib"] (some m) (env.wvMaskOf t.nslits)
                | none =>
                  maskMergeStep
                    { c with wv_calib := some (some env.wvRun),
                             wv_maskslits := some (some (env.wvMaskOf t.nslits)),
                             calib_dict := setKey c.calib_dict c.setup
                               (setKey (setKey bkt "wavecalib" (.art env.wvRun))
                                 "wvmask" (.mask (env.wvMaskOf t.nslits))) }
                    [.loadCall "wavecalib", .buildCall "wavecalib",
                     .saveMaster "wavecalib"]
                    (some env.wvRun) (env.wvMaskOf t.nslits)

/-- `Calibrations.get_tilts(arc)`.  The `arc` argument is accepted but never
used by the source body.  The cache-hit and load-or-build branches both end by
OR-merging the stage mask `wt_maskslits` into the accumulated `maskslits`.
The tilt-settings kludge in the source only rearranges the opaque settings
payload. -/
def Calibrations.get_tilts (env : BuilderEnv) (c : Calibrations)
    (arc : Option Artifact) : AccRes (Artifact × Mask) :=
  match c.chk_objs ["msarc", "tslits_dict", "pixlocn", "wv_calib", "maskslits"] with
  | .failWarn evs => (c, evs, .unavailable)
  | .attrErr o => (c, [], .err (.attributeError o))
  | .ok =>
    match c.chk_set ["det", "settings", "setup", "sci_ID"] with
    | some e => (c, [], .err e)
    | none =>
      match lookupKey c.calib_dict c.setup with
      | none => (c, [], .err .keyError)
      | some bkt =>
        match lookupKey bkt "tilts" with
        | some (.art a) =>
          (match lookupKey bkt "wtmask" with
           | some (.mask wm) =>
             maskMergeStep
               { c with mstilts := some (some a), wt_maskslits := some (some wm) }
               [] a wm
           | some _ => (c, [], .err (.typeError "unexpected cached value"))
           | none => (c, [], .err .keyError))
        | some _ => (c, [], .err (.typeError "unexpected cached value"))
        | none =>
          match env.tiltsMaster with
          | some m =>
            maskMergeStep
              { c with mstilts := some (some m),
                       wt_maskslits := some (some (zerosLike c.maskslits)),
                       calib_dict := setKey c.calib_dict c.setup
                         (setKey (setKey bkt "tilts" (.art m))
                           "wtmask" (.mask (zerosLike c.maskslits))) }
              [.loadCall "tilts"] m (zerosLike c.maskslits)
          | none =>
            maskMergeStep
              { c with mstilts := some (some env.tiltsRun.1),
                       wt_maskslits := some (some env.tiltsRun.2),
                       calib_dict := setKey c.calib_dict c.setup
                         (setKey (setKey bkt "tilts" (.art env.tiltsRun.1))
                           "wtmask" (.mask env.tiltsRun.2)) }
              [.loadCall "tilts", .buildCall "tilts", .saveMaster "tilts"]
              env.tiltsRun.1 env.tiltsRun.2

/-- `Calibrations.get_pixflatnrm(datasec_img)`.  The very first statement
indexes `self.settings`, so an unset settings bundle raises `TypeError`.  When
flat-fielding is disabled the accessor is a pure policy short-circuit: both
attributes are set to `None`, nothing is built, loaded or cached, and
`(None, None)` is returned. -/
def Calibrations.get_pixflatnrm (env : BuilderEnv) (c : Calibrations)
    (datasec_img : Nat) : AccRes (Option Artifact × Option Artifact) :=
  match c.settings with
  | none => (c, [], .err (.typeError "NoneType object is not subscriptable"))
  | some st =>
    if st.flatfieldPerform then
      match c.chk_objs ["tslits_dict", "mstilts"] with
      | .failWarn evs => (c, evs, .unavailable)
      | .attrErr o => (c, [], .err (.attributeError o))
      | .ok =>
        match c.chk_set ["det", "settings", "sci_ID", "setup"] with
        | some e => (c, [], .err e)
        | none =>
          match lookupKey c.calib_dict c.setup with
          | none => (c, [], .err .keyError)
          | some bkt =>
            match lookupKey bkt "normpixelflat" with
            | some (.art a) =>
              (match lookupKey bkt "slitprof" with
               | some (.art s) =>
                 ({ c with mspixflatnrm := some (some a),
                           slitprof := some (some s) },
                  [], .ok (some a, some s))
               | some _ => (c, [], .err (.typeError "unexpected cached value"))
               | none => (c, [], .err .keyError))
            | some _ => (c, [], .err (.typeError "unexpected cached value"))
            | none =>
              -- MasterFrame load, optional user-supplied flat, else run
              if st.flatUseframe = "pixelflat" || st.flatUseframe = "trace" then
                match env.flatMaster with
                | some m =>
                  ({ c with mspixflatnrm := some (some m),
                            slitprof := some (some env.flatSlitprofLoad),
                            calib_dict := setKey c.calib_dict c.setup
                              (setKey (setKey bkt "normpixelflat" (.art m))
                                "slitprof" (.art env.flatSlitprofLoad)) },
                   [.loadCall "normpixelflat", .loadCall "slitprof"],
                   .ok (some m, some env.flatSlitprofLoad))
                | none =>
                  ({ c with mspixflatnrm := some (some env.flatRun.1),
                            slitprof := some (some env.flatRun.2),
                            calib_dict := setKey c.calib_dict c.setup
                              (setKey (setKey bkt "normpixelflat" (.art env.flatRun.1))
                                "slitprof" (.art env.flatRun.2)) },
                   [.loadCall "normpixelflat", .buildCall "normpixelflat",
                    .saveMaster "normpixelflat", .saveMaster "slitprof"],
                   .ok (some env.flatRun.1, some env.flatRun.2))
              else
                ({ c with mspixflatnrm := some (some env.flatUserLoad),
                          slitprof := some (some (env.onesLike env.flatUserLoad)),
                          calib_dict := setKey c.calib_dict c.setup
                            (setKey (setKey bkt "normpixelflat" (.art env.flatUserLoad))
                              "slitprof" (.art (env.onesLike env.flatUserLoad))) },
                 [.loadCall "normpixelflat", .loadCall "userflat"],
                 .ok (some env.flatUserLoad, some (env.onesLike env.flatUserLoad)))
    else
      ({ c with mspixflatnrm := some none, slitprof := some none },
       [], .ok (none, none))

/-- The value a Python assignment `x = accessor()` stores when the accessor
returned normally (`None` for a bare return). -/
def outToOpt {α : Type} : Outcome α → Option α
  | .ok a => some a
  | _ => none

/-- `Calibrations.full_calibrate`: `get_bias`, `get_arc(msbias)` and
`get_bpm(msarc, msbias)` in sequence, assigning each result to the
corresponding internal; the fourth statement calls `self.make_pixlocn`, a
method that does not exist on the class (the accessor is named `get_pixlocn`),
so the chain always ends in `AttributeError`. -/
def Calibrations.full_calibrate (env : BuilderEnv) (c : Calibrations) :
    AccRes Unit :=
  match Calibrations.get_bias env c with
  | (c1, e1, .err e) => (c1, e1, .err e)
  | (c1, e1, r1) =>
    let c1b := { c1 with msbias := outToOpt r1 }
    match Calibrations.get_arc env c1b c1b.msbias with
    | (c2, e2, .err e) => (c2, e1 ++ e2, .err e)
    | (c2, e2, r2) =>
      let c2b := { c2 with msarc := outToOpt r2 }
      match Calibrations.get_bpm env c2b c2b.msarc c2b.msbias with
      | (c3, e3, .err e) => (c3, e1 ++ e2 ++ e3, .err e)
      | (c3, e3, r3) =>
        let c3b := { c3 with msbpm := some (outToOpt r3) }
        (c3b, e1 ++ e2 ++ e3, .err (.attributeError "make_pixlocn"))

/-- A value held in the settings tree of `src/arparse.py`: either an opaque
leaf or a nested dictionary (a `NestedDict` is a `dict` whose values may be
leaves or further `NestedDict`s). -/
inductive NVal where
  | leaf (n : Nat)
  | sub (entries : List (String × NVal))

/-- Plain `dict.__getitem__`: `none` models the `KeyError` raised on a
missing key. -/
def dictGetitem (d : List (String × NVal)) (k : String) : Option NVal :=
  lookupKey d k

/-- `NestedDict.__getitem__`: try the plain dict lookup; on `KeyError`,
create a fresh empty `NestedDict`, store it under the key, and return it. -/
def ndGetitem (d : List (String × NVal)) (k : String) :
    NVal × List (String × NVal) :=
  match dictGetitem d k with
  | some v => (v, d)
  | none => (NVal.sub [], setKey d k (NVal.sub []))

/-! ### Concrete fixtures for scenario runs -/

/-- A concrete settings bundle: flat-fielding on, a real wavelength solution
requested. -/
def stA : Settings :=
  { flatfieldPerform := true, wavelengthMode := "arc",
    flatUseframe := "pixelflat", payload := 0 }

/-- A settings bundle with flat-fielding disabled. -/
def stOff : Settings :=
  { flatfieldPerform := false, wavelengthMode := "arc",
    flatUseframe := "pixelflat", payload := 0 }

/-- A concrete builder environment whose MasterFrame loads all miss, so every
artifact gets built from raw inputs. -/
def envA : BuilderEnv :=
  { biasMaster := none, biasBuild := 3,
    arcMaster := none, arcBuild := 7,
    bpmBuild := 9, hasSciRow := true,
    traceMasterHit := false, traceTslits := { nslits := 2, payload := 4 },
    wvMaster := none, wvRun := 11, wvMaskOf := fun n => List.replicate n false,
    tiltsMaster := none, tiltsRun := (13, [false, true]),
    flatMaster := none, flatUserLoad := 15, flatRun := (17, 19),
    flatSlitprofLoad := 21, onesLike := fun a => a + 1,
    genPixloc := fun a _ => a + 100 }

/-- The state after `set("A", 1, 1, stA)` on a fresh `Calibrations` object. -/
def cfgA : Calibrations :=
  ((Calibrations.init).set (some "A") (some 1) (some 1) stA).1

/-- The state after the first `get_arc(bias=3)` call on the configured
scope `cfgA`. -/
def afterFirstArc : Calibrations := (Calibrations.get_arc envA cfgA (some 3)).1

/-- Build the arc under configuration `"A"` (with an explicit bias `5`), then
re-configure to `"B"`: the input for the scope-isolation check. -/
def afterReconfB : Calibrations :=
  (((Calibrations.get_arc envA cfgA (some 5)).1).set
    (some "B") (some 1) (some 1) stA).1

/-- A slit-trace dictionary with two slits. -/
def tsl2 : TSlitsDict := { nslits := 2, payload := 4 }

/-- A configured state whose cache already holds a SlitGeometry for setup
`"A"` and whose accumulated slit mask has both slits flagged. -/
def slitCacheState : Calibrations :=
  { Calibrations.init with
    setup := some "A", det := some 1, sci_ID := some 1, settings := some stA,
    pixlocn := some 3, maskslits := some [true, true],
    calib_dict := [(some "A", [("trace", CVal.tsl tsl2)])] }

/-- A configured state with cached tilts artifact `13` and cached stage mask
`wm`, and accumulated slit mask `m`: the input family for the mask-merge
analysis of `get_tilts`. -/
def tiltCacheState (m wm : Mask) : Calibrations :=
  { Calibrations.init with
    setup := some "A", det := some 1, sci_ID := some 1, settings := some stA,
    msarc := some 2, pixlocn := some 3, tslits_dict := some tsl2,
    maskslits := some m, wv_calib := some (some 11),
    calib_dict := [(some "A", [("tilts", CVal.art 13), ("wtmask", CVal.mask wm)])] }

/-- A fully configured one-slit state with an already-flagged slit mask, on
which `get_wv_calib` will run its build branch. -/
def wvReadyState : Calibrations :=
  { Calibrations.init with
    setup := some "A", det := some 1, sci_ID := some 1, settings := some stA,
    msarc := some 2, pixlocn := some 3,
    tslits_dict := some { nslits := 1, payload := 0 },
    maskslits := some [true],
    calib_dict := [(some "A", [])] }

/-- A fresh state whose settings disable flat-fielding. -/
def flatOffState : Calibrations :=
  { Calibrations.init with settings := some stOff }

/-! ### Helper lemmas -/

theorem lookupKey_setKey_self {κ α : Type} [DecidableEq κ]
    (l : List (κ × α)) (k : κ) (v : α) :
    lookupKey (setKey l k v) k = some v := by
  induction l with
  | nil => simp [setKey, lookupKey]
  | cons hd tl ih =>
    obtain ⟨k0, v0⟩ := hd
    by_cases h : k0 = k <;> simp [setKey, lookupKey, h, ih]

theorem zipWith_or_true (a : List Bool) :
    ∀ (b : List Bool) (i : Nat), a[i]? = some true →
      (List.zipWith (fun x y => x || y) a b)[i]? = some (true : Bool) ∨
      (List.zipWith (fun x y => x || y) a b)[i]? = none := by
  induction a with
  | nil => intro b i h; simp at h
  | cons x xs ih =>
    intro b i h
    cases b with
    | nil => right; simp
    | cons y ys =>
      cases i with
      | zero =>
        left
        simp at h
        simp [h]
      | succ n =>
        simp only [List.zipWith_cons_cons, List.getElem?_cons_succ] at h ⊢
        exact ih ys n h

theorem zipWith_or_true_of_length (a b : List Bool) (i : Nat)
    (hl : b.length = a.length) (h : a[i]? = some true) :
    (List.zipWith (fun x y => x || y) a b)[i]? = some true := by
  rcases zipWith_or_true a b i h with h2 | h2
  · exact h2
  · exfalso
    have hi : i < a.length := by
      by_contra hcon
      push_neg at hcon
      rw [List.getElem?_eq_none hcon] at h
      exact Option.noConfusion h
    rw [List.getElem?_eq_none_iff] at h2
    rw [List.length_zipWith, hl, Nat.min_self] at h2
    omega

theorem map_or_true (a : List Bool) (y : Bool) (i : Nat)
    (h : a[i]? = some true) :
    (a.map (fun x => x || y))[i]? = some true := by
  rw [List.getElem?_map, h]
  rfl

/-- The numpy OR-merge never unsets a flag: any position that is `true` in
the accumulated mask is still `true` in a successful merge result. -/
theorem npAddBool_mono (a b r : List Bool) (h : npAddBool a b = some r)
    (i : Nat) (ht : a[i]? = some true) : r[i]? = some true := by
  unfold npAddBool at h
  by_cases h1 : b.length = a.length
  · rw [if_pos h1] at h
    injection h with h
    subst h
    exact zipWith_or_true_of_length a b i h1 ht
  · rw [if_neg h1] at h
    by_cases h2 : b.length = 1
    · rw [if_pos h2] at h
      injection h with h
      subst h
      exact map_or_true a (b.headD false) i ht
    · rw [if_neg h2] at h
      exact absurd h (by simp)

/-- Monotonicity of the `maskslits += incoming` step: when it succeeds, every
flagged slit stays flagged. -/
theorem maskMergeStep_mono {α : Type} {c : Calibrations} {evs : List Event}
    {v : α} {wm : Mask} {c' : Calibrations} {ev : List Event} {r : α × Mask}
    (h : maskMergeStep c evs v wm = (c', ev, Outcome.ok r))
    {m : List Bool} (hm : c.maskslits = some m)
    {i : Nat} (hi : m[i]? = some true) :
    ∃ m2, c'.maskslits = some m2 ∧ m2[i]? = some true := by
  have hdef : maskMergeStep c evs v wm =
      (match npAddBool m wm with
       | none =>
         (c, evs, Outcome.err (.valueError "operands could not be broadcast together"))
       | some m2 => ({ c with maskslits := some m2 }, evs, Outcome.ok (v, m2))) := by
    unfold maskMergeStep
    rw [hm]
  rw [hdef] at h
  cases hadd : npAddBool m wm with
  | none =>
    rw [hadd] at h
    simp at h
  | some m2 =>
    rw [hadd] at h
    simp only [Prod.mk.injEq] at h
    obtain ⟨h1, -, -⟩ := h
    exact ⟨m2, by rw [← h1], npAddBool_mono m wm m2 hadd i hi⟩

/-- Rewriting form of the merge step once the accumulated mask is known. -/
theorem maskMergeStep_eq {α : Type} (c : Calibrations) (evs : List Event)
    (v : α) (wm m : Mask) (hm : c.maskslits = some m) :
    maskMergeStep c evs v wm =
      (match npAddBool m wm with
       | none =>
         (c, evs, Outcome.err (.valueError "operands could not be broadcast together"))
       | some m2 => ({ c with maskslits := some m2 }, evs, Outcome.ok (v, m2))) := by
  unfold maskMergeStep
  rw [hm]

/-! ### Claim theorems -/

/-- Claim C1, code-bug exhibit.  On the configured scope, the first
`get_arc(bias=3)` call successfully builds the arc, yet afterwards
`calib_dict` holds nothing under the `arc` tag, because the store in the
source sits after an early `return` and is unreachable; consequently the
second call misses the cache and invokes the Builder MasterFrame load and the
build again, violating the at-most-once-build property. -/
theorem C1_arc_rebuilt_on_second_call :
    (Calibrations.get_arc envA cfgA (some 3)).2.2 = Outcome.ok 7 ∧
    Event.buildCall "arc" ∈ (Calibrations.get_arc envA cfgA (some 3)).2.1 ∧
    lookupKey ((lookupKey afterFirstArc.calib_dict (some "A")).getD []) "arc" = none ∧
    Event.loadCall "arc" ∈ (Calibrations.get_arc envA afterFirstArc none).2.1 ∧
    Event.buildCall "arc" ∈ (Calibrations.get_arc envA afterFirstArc none).2.1 := by
  decide

/-- Claim C2, counterexample.  On a configured scope with no bias available,
`get_arc` raises a fatal `msgs.error` instead of logging a warning and
returning an unavailable result, so the claimed no-exception behaviour is
false for get-Arc. -/
theorem C2_cex_get_arc_fatal :
    Calibrations.get_arc envA cfgA none =
      (cfgA, [], Outcome.err (PyErr.error "msbias needs to be set prior to arc")) := by
  rfl

/-- Claim C2, amended.  The accessors that gate on `_chk_objs` -- get_slits,
get_wv_calib, get_tilts, and get_pixflatnrm when flat-fielding is enabled --
warn about the first missing prerequisite in their declared order, whichever
slot it occupies (for late-bound attributes, missing means the attribute
exists and is `None`), naming the prerequisite and the accessor that produces
it, return an unavailable result with the state (hence CalibDict) unchanged
and raise nothing; get_arc with a missing bias instead fails with a fatal
error, also storing nothing. -/
theorem C2_amended_prereq_warnings (env : BuilderEnv) (c : Calibrations) :
    (c.pixlocn = none → ∀ d, Calibrations.get_slits env c d =
        (c, warnEvents "pixlocn", Outcome.unavailable)) ∧
    (c.msarc = none → Calibrations.get_wv_calib env c none =
        (c, warnEvents "msarc", Outcome.unavailable)) ∧
    (c.msarc.isSome = true → c.tslits_dict = none →
      Calibrations.get_wv_calib env c none =
        (c, warnEvents "tslits_dict", Outcome.unavailable)) ∧
    (c.msarc.isSome = true → c.tslits_dict.isSome = true → c.pixlocn = none →
      Calibrations.get_wv_calib env c none =
        (c, warnEvents "pixlocn", Outcome.unavailable)) ∧
    (c.msarc = none → Calibrations.get_tilts env c none =
        (c, warnEvents "msarc", Outcome.unavailable)) ∧
    (c.msarc.isSome = true → c.tslits_dict = none →
      Calibrations.get_tilts env c none =
        (c, warnEvents "tslits_dict", Outcome.unavailable)) ∧
    (c.msarc.isSome = true → c.tslits_dict.isSome = true → c.pixlocn = none →
      Calibrations.get_tilts env c none =
        (c, warnEvents "pixlocn", Outcome.unavailable)) ∧
    (c.msarc.isSome = true → c.tslits_dict.isSome = true →
      c.pixlocn.isSome = true → c.wv_calib = some none →
      Calibrations.get_tilts env c none =
        (c, warnEvents "wv_calib", Outcome.unavailable)) ∧
    (∀ w, c.msarc.isSome = true → c.tslits_dict.isSome = true →
      c.pixlocn.isSome = true → c.wv_calib = some (some w) →
      c.maskslits = none →
      Calibrations.get_tilts env c none =
        (c, warnEvents "maskslits", Outcome.unavailable)) ∧
    (∀ st, c.settings = some st → st.flatfieldPerform = true →
      c.tslits_dict = none →
      ∀ d, Calibrations.get_pixflatnrm env c d =
        (c, warnEvents "tslits_dict", Outcome.unavailable)) ∧
    (∀ st, c.settings = some st → st.flatfieldPerform = true →
      c.tslits_dict.isSome = true → c.mstilts = some none →
      ∀ d, Calibrations.get_pixflatnrm env c d =
        (c, warnEvents "mstilts", Outcome.unavailable)) ∧
    (c.msbias = none → Calibrations.get_arc env c none =
        (c, [], Outcome.err (PyErr.error "msbias needs to be set prior to arc"))) := by
  refine ⟨?_, ?_, ?_, ?_, ?_, ?_, ?_, ?_, ?_, ?_, ?_, ?_⟩
  · intro h d
    simp [Calibrations.get_slits, Calibrations.chk_objs, Calibrations.getattrObj, h]
  · intro h
    simp [Calibrations.get_wv_calib, Calibrations.chk_objs, Calibrations.getattrObj, h]
  · intro h1 h2
    simp [Calibrations.get_wv_calib, Calibrations.chk_objs, Calibrations.getattrObj,
          h1, h2]
  · intro h1 h2 h3
    simp [Calibrations.get_wv_calib, Calibrations.chk_objs, Calibrations.getattrObj,
          h1, h2, h3]
  · intro h
    simp [Calibrations.get_tilts, Calibrations.chk_objs, Calibrations.getattrObj, h]
  · intro h1 h2
    simp [Calibrations.get_tilts, Calibrations.chk_objs, Calibrations.getattrObj,
          h1, h2]
  · intro h1 h2 h3
    simp [Calibrations.get_tilts, Calibrations.chk_objs, Calibrations.getattrObj,
          h1, h2, h3]
  · intro h1 h2 h3 h4
    simp [Calibrations.get_tilts, Calibrations.chk_objs, Calibrations.getattrObj,
          h1, h2, h3, h4]
  · intro w h1 h2 h3 h4 h5
    simp [Calibrations.get_tilts, Calibrations.chk_objs, Calibrations.getattrObj,
          h1, h2, h3, h4, h5]
  · intro st hs hp ht d
    simp [Calibrations.get_pixflatnrm, Calibrations.chk_objs,
          Calibrations.getattrObj, hs, hp, ht]
  · intro st hs hp ht hm d
    simp [Calibrations.get_pixflatnrm, Calibrations.chk_objs,
          Calibrations.getattrObj, hs, hp, ht, hm]
  · intro h
    simp [Calibrations.get_arc, h]

/-- Witness for C2 amended: a fresh object has `pixlocn = None`, and
`get_slits` warns and returns unavailable on it. -/
theorem C2_amended_prereq_warnings_witness :
    Calibrations.get_slits envA Calibrations.init 0 =
      (Calibrations.init, warnEvents "pixlocn", Outcome.unavailable) :=
  (C2_amended_prereq_warnings envA Calibrations.init).1 rfl 0

/-- Claim C3, counterexample.  Invoking `get_wv_calib` on a fresh,
never-configured object does not raise any ConfigurationError: the
`_chk_objs` gate runs before `_chk_set`, so the call just warns and returns
an unavailable result. -/
theorem C3_cex_wv_calib_no_error :
    Calibrations.get_wv_calib envA Calibrations.init none =
      (Calibrations.init, warnEvents "msarc", Outcome.unavailable) := by
  rfl

/-- Claim C3, amended.  Before `set` is called, every accessor stores nothing
in `calib_dict` (the state is returned unchanged), but only `get_bias`,
`get_bpm` and `get_pixlocn` fail with the `_chk_set` configuration error;
`get_arc` fails with the fatal missing-bias error, `get_slits`, `get_wv_calib`
and `get_tilts` return an unavailable result with warnings, and
`get_pixflatnrm` raises a `TypeError` from indexing the unset settings. -/
theorem C3_amended_unconfigured (env : BuilderEnv) (d : Nat) :
    (Calibrations.get_bias env Calibrations.init =
      (Calibrations.init, [], Outcome.err (chkSetMsg "setup"))) ∧
    (Calibrations.get_arc env Calibrations.init none =
      (Calibrations.init, [],
       Outcome.err (PyErr.error "msbias needs to be set prior to arc"))) ∧
    (Calibrations.get_bpm env Calibrations.init none none =
      (Calibrations.init, [], Outcome.err (chkSetMsg "det"))) ∧
    (Calibrations.get_pixlocn env Calibrations.init none =
      (Calibrations.init, [], Outcome.err (chkSetMsg "settings"))) ∧
    (Calibrations.get_slits env Calibrations.init d =
      (Calibrations.init, warnEvents "pixlocn", Outcome.unavailable)) ∧
    (Calibrations.get_wv_calib env Calibrations.init none =
      (Calibrations.init, warnEvents "msarc", Outcome.unavailable)) ∧
    (Calibrations.get_tilts env Calibrations.init none =
      (Calibrations.init, warnEvents "msarc", Outcome.unavailable)) ∧
    (Calibrations.get_pixflatnrm env Calibrations.init d =
      (Calibrations.init, [],
       Outcome.err (PyErr.typeError "NoneType object is not subscriptable"))) :=
  ⟨rfl, rfl, rfl, rfl, rfl, rfl, rfl, rfl⟩

/-- Witness for C3 amended, instantiated at the concrete environment. -/
theorem C3_amended_unconfigured_witness :
    (Calibrations.get_bias envA Calibrations.init).2.2 =
      Outcome.err (chkSetMsg "setup") := by
  rw [(C3_amended_unconfigured envA 0).1]

/-- Claim C4, code-bug exhibit.  `set` only logs the work note about
resetting the internals; it does not reset them.  After building the arc
under configuration A with bias 5 and re-configuring to B, `msbias` still
holds the A bias, configuration B has no cached bias, and yet `get_arc`
under B passes its bias prerequisite and proceeds to build. -/
theorem C4_bias_leaks_across_configs :
    afterReconfB.setup = some "B" ∧
    afterReconfB.msbias = some 5 ∧
    lookupKey ((lookupKey afterReconfB.calib_dict (some "B")).getD []) "bias" = none ∧
    (Calibrations.get_arc envA afterReconfB none).2.2 = Outcome.ok 7 ∧
    Event.buildCall "arc" ∈ (Calibrations.get_arc envA afterReconfB none).2.1 := by
  decide

/-- Claim C5.  Mask merging in `get_wv_calib` and `get_tilts` never unsets a
flag: any slit position flagged `true` before a successful stage completion
is still `true` afterwards; and when the incoming stage mask has the same
length as the accumulated mask, the merge is exactly the element-wise OR. -/
theorem C5_mask_monotone (env : BuilderEnv) (c : Calibrations)
    (arc : Option Artifact) (c' : Calibrations) (ev : List Event)
    (m : List Bool) (i : Nat) :
    (∀ r, Calibrations.get_wv_calib env c arc = (c', ev, Outcome.ok r) →
      c.maskslits = some m → m[i]? = some true →
      ∃ m2, c'.maskslits = some m2 ∧ m2[i]? = some true) ∧
    (∀ r, Calibrations.get_tilts env c arc = (c', ev, Outcome.ok r) →
      c.maskslits = some m → m[i]? = some true →
      ∃ m2, c'.maskslits = some m2 ∧ m2[i]? = some true) ∧
    (∀ a b : List Bool, b.length = a.length →
      npAddBool a b = some (List.zipWith (fun x y => x || y) a b)) := by
  refine ⟨?_, ?_, ?_⟩
  · intro r hw hm hi
    cases arc with
    | none =>
      simp only [Calibrations.get_wv_calib] at hw
      repeat' split at hw
      all_goals first
        | exact maskMergeStep_mono hw hm hi
        | simp at hw
    | some a =>
      simp only [Calibrations.get_wv_calib] at hw
      repeat' split at hw
      all_goals first
        | exact maskMergeStep_mono hw hm hi
        | simp at hw
  · intro r hw hm hi
    simp only [Calibrations.get_tilts] at hw
    repeat' split at hw
    all_goals first
      | exact maskMergeStep_mono hw hm hi
      | simp at hw
  · intro a b hl
    simp [npAddBool, hl]

/-- Witness for C5: a successful `get_wv_calib` on a one-slit state whose
mask already flags slit 0 keeps slit 0 flagged. -/
theorem C5_mask_monotone_witness :
    ∃ m2, (Calibrations.get_wv_calib envA wvReadyState none).1.maskslits = some m2 ∧
      m2[0]? = some true := by
  exact (C5_mask_monotone envA wvReadyState none
      (Calibrations.get_wv_calib envA wvReadyState none).1
      (Calibrations.get_wv_calib envA wvReadyState none).2.1 [true] 0).1
    (some 11, [true]) (by decide) (by decide) (by decide)

/-- Claim C6, code-bug exhibit.  `full_calibrate` on a configured scope runs
bias, then arc, then bad-pixel-mask (the event log shows the Builder calls in
exactly that order), but its fourth statement calls `self.make_pixlocn`, a
method that does not exist on the class, so the chain always dies with
`AttributeError` and the pixel location map is never produced. -/
theorem C6_full_calibrate_crashes :
    (Calibrations.full_calibrate envA cfgA).2.2 =
      Outcome.err (PyErr.attributeError "make_pixlocn") ∧
    (Calibrations.full_calibrate envA cfgA).2.1 =
      [Event.loadCall "bias", Event.buildCall "bias", Event.saveMaster "bias",
       Event.loadCall "arc", Event.info "Preparing a master arc frame",
       Event.buildCall "arc", Event.saveMaster "arc", Event.buildCall "bpm"] ∧
    (Calibrations.full_calibrate envA cfgA).1.pixlocn = none :=
  ⟨rfl, rfl, rfl⟩

/-- Claim C7, counterexample.  Retrieving an already-cached SlitGeometry is a
pure cache hit (no Builder events), and yet it resets the accumulated mask
from `[true, true]` back to all-false, because the reinitialisation in
`get_slits` sits outside the cache-miss branch. -/
theorem C7_cex_cache_hit_resets_mask :
    slitCacheState.maskslits = some [true, true] ∧
    Calibrations.get_slits envA slitCacheState 0 =
      ({ slitCacheState with tslits_dict := some tsl2,
                             maskslits := some [false, false] },
       [], Outcome.ok (tsl2, [false, false])) :=
  ⟨rfl, rfl⟩

/-- Claim C7, amended.  `get_slits` reinitialises the mask to all-false on
*every* successful call -- after a rebuild and equally after a cache hit. -/
theorem C7_amended_always_resets (env : BuilderEnv) (c : Calibrations)
    (d : Nat) (c' : Calibrations) (ev : List Event) (t : TSlitsDict) (m : Mask)
    (h : Calibrations.get_slits env c d = (c', ev, Outcome.ok (t, m))) :
    m = List.replicate t.nslits false ∧ c'.maskslits = some m := by
  simp only [Calibrations.get_slits] at h
  repeat' split at h
  all_goals first
    | (simp at h
       done)
    | (simp only [Prod.mk.injEq, Outcome.ok.injEq] at h
       obtain ⟨hc, -, ht, hm2⟩ := h
       subst hc
       subst ht
       subst hm2
       exact ⟨rfl, rfl⟩)

/-- Witness for C7 amended: the cache-hit run on `slitCacheState`. -/
theorem C7_amended_always_resets_witness :
    ([false, false] : Mask) = List.replicate tsl2.nslits false ∧
    (Calibrations.get_slits envA slitCacheState 0).1.maskslits =
      some [false, false] := by
  exact C7_amended_always_resets envA slitCacheState 0
    (Calibrations.get_slits envA slitCacheState 0).1
    (Calibrations.get_slits envA slitCacheState 0).2.1 tsl2 [false, false]
    (by decide)

/-- Claim C8.  When the settings disable flat-fielding, `get_pixflatnrm`
returns `(None, None)`, emits no Builder load or build event, raises nothing,
and changes only the two flat attributes -- in particular `calib_dict` is
untouched. -/
theorem C8_flat_disabled (env : BuilderEnv) (c : Calibrations) (d : Nat)
    (st : Settings) (hs : c.settings = some st)
    (hp : st.flatfieldPerform = false) :
    Calibrations.get_pixflatnrm env c d =
      ({ c with mspixflatnrm := some none, slitprof := some none },
       [], Outcome.ok (none, none)) := by
  simp [Calibrations.get_pixflatnrm, hs, hp]

/-- Witness for C8 at a concrete state with flat-fielding disabled. -/
theorem C8_flat_disabled_witness :
    Calibrations.get_pixflatnrm envA flatOffState 0 =
      ({ flatOffState with mspixflatnrm := some none, slitprof := some none },
       [], Outcome.ok (none, none)) :=
  C8_flat_disabled envA flatOffState 0 stOff rfl rfl

/-- Claim C9, counterexample.  A merge between the accumulated two-slit mask
and a cached one-element stage mask has mismatched lengths, yet `get_tilts`
does not fail: numpy broadcasting silently absorbs the length-1 operand and
the call succeeds. -/
theorem C9_cex_broadcast_absorbed :
    (tiltCacheState [false, false] [true]).maskslits = some [false, false] ∧
    Calibrations.get_tilts envA (tiltCacheState [false, false] [true]) none =
      ({ tiltCacheState [false, false] [true] with
          mstilts := some (some 13), wt_maskslits := some (some [true]),
          maskslits := some [true, true] },
       [], Outcome.ok (13, [true, true])) :=
  ⟨rfl, rfl⟩

/-- Claim C9, amended.  In the `get_tilts` merge of a cached stage mask `wm`
into the accumulated mask `m`: equal lengths give the element-wise OR; a
length-1 `wm` of different length is broadcast over `m` (silently absorbed);
every other length disagreement raises `ValueError`. -/
theorem C9_amended_merge_shapes (m wm : Mask) :
    (wm.length = m.length →
      (Calibrations.get_tilts envA (tiltCacheState m wm) none).2.2 =
        Outcome.ok (13, List.zipWith (fun x y => x || y) m wm) ∧
      (Calibrations.get_tilts envA (tiltCacheState m wm) none).1.maskslits =
        some (List.zipWith (fun x y => x || y) m wm)) ∧
    (wm.length ≠ m.length → wm.length = 1 →
      (Calibrations.get_tilts envA (tiltCacheState m wm) none).2.2 =
        Outcome.ok (13, m.map (fun x => x || wm.headD false))) ∧
    (wm.length ≠ m.length → wm.length ≠ 1 →
      (Calibrations.get_tilts envA (tiltCacheState m wm) none).2.2 =
        Outcome.err (PyErr.valueError "operands could not be broadcast together")) := by
  have hmain : Calibrations.get_tilts envA (tiltCacheState m wm) none =
      maskMergeStep
        { tiltCacheState m wm with mstilts := some (some 13),
                                   wt_maskslits := some (some wm) }
        [] 13 wm := rfl
  refine ⟨?_, ?_, ?_⟩
  · intro hl
    have hadd : npAddBool m wm = some (List.zipWith (fun x y => x || y) m wm) := by
      simp [npAddBool, hl]
    rw [hmain, maskMergeStep_eq _ _ _ _ m rfl, hadd]
    exact ⟨rfl, rfl⟩
  · intro hne h1
    have hne2 : (1 : Nat) ≠ m.length := by omega
    have hadd : npAddBool m wm = some (m.map (fun x => x || wm.headD false)) := by
      simp [npAddBool, h1, hne2]
    rw [hmain, maskMergeStep_eq _ _ _ _ m rfl, hadd]
  · intro hne h1
    have hadd : npAddBool m wm = none := by
      simp [npAddBool, hne, h1]
    rw [hmain, maskMergeStep_eq _ _ _ _ m rfl, hadd]

/-- Witness for C9 amended: a two-element stage mask against a one-element
accumulated mask is non-broadcastable and raises `ValueError`. -/
theorem C9_amended_merge_shapes_witness :
    (Calibrations.get_tilts envA (tiltCacheState [false] [true, false]) none).2.2 =
      Outcome.err (PyErr.valueError "operands could not be broadcast together") :=
  (C9_amended_merge_shapes [false] [true, false]).2.2 (by decide) (by decide)

/-- Claim C10.  `NestedDict.__getitem__` never raises `KeyError`: a present
key returns its stored value with the dict unchanged; an absent key inserts a
fresh empty `NestedDict` under the key and returns it, so after any lookup
the key is present. -/
theorem C10_nesteddict_total (d : List (String × NVal)) (k : String) :
    (lookupKey (ndGetitem d k).2 k).isSome = true ∧
    (dictGetitem d k = none →
      ndGetitem d k = (NVal.sub [], setKey d k (NVal.sub []))) ∧
    (∀ v, dictGetitem d k = some v → ndGetitem d k = (v, d)) := by
  refine ⟨?_, ?_, ?_⟩
  · cases h : dictGetitem d k with
    | some v =>
      have h2 : lookupKey d k = some v := h
      simp [ndGetitem, h, h2]
    | none =>
      simp [ndGetitem, h, lookupKey_setKey_self]
  · intro h
    simp [ndGetitem, h]
  · intro v h
    simp [ndGetitem, h]

/-- Witness for C10: looking up a key in an empty settings tree inserts and
returns a fresh empty dict. -/
theorem C10_nesteddict_total_witness :
    ndGetitem [] "run" = (NVal.sub [], [("run", NVal.sub [])]) :=
  (C10_nesteddict_total [] "run").2.1 rfl

end PypitCalib
